import Mathlib

/-!
Verification of the DSTUR-Relay Tauri bridge
(`src/gui/dstur-relay-gui/src-tauri/src/lib.rs`).

The bridge locates an external `relay.exe` controller binary, builds
command-line argument vectors for four operations (list-ports, status,
set one relay, set all relays), launches the binary as a child process
and reports a structured `CmdResult`.

Shallow embedding conventions:
* A filesystem path (`PathBuf`) is a list of components; `join` is list
  append (Rust's `Path::join` with a single component, no normalisation
  of `..`).
* The runtime environment (`Env`) supplies the results of
  `app.path().executable_dir()`, `std::env::current_exe()`, the
  compile-time `CARGO_MANIFEST_DIR`, and the filesystem existence
  predicate `Path::exists`.
* The `OnceLock<PathBuf>` cache `RELAY_PATH` is threaded explicitly:
  resolution takes the cache before the call and reports the cache after
  it.
* Process launching is a function `run : Path → List String → ProcOutcome`
  inside a `World`; `ProcOutcome` distinguishes a failed spawn
  (`Command::output()` returning `Err`), a normal exit with an exit code
  (`ExitStatus::code() = Some c`, `success()` iff `c = 0`), and
  termination without an exit code, e.g. by a signal
  (`code() = None`, `success() = false`).
* Child output bytes are `List Nat` (byte values); decoded text is a
  `List Nat` of Unicode scalar values produced by `utf8Lossy`, the
  embedding of `String::from_utf8_lossy`.
* Each semantic step additionally records a `Trace` (which paths were
  probed for existence, which processes were launched, the cache after
  the call) so that claims of the form "no filesystem check happens" or
  "no process is launched" are directly statable.
-/

/-- A filesystem path, as a list of components.  `p.join c` is `p ++ [c]`;
Rust's `Path::join` performs no `..` normalisation, so neither do we. -/
abbrev RPath := List String

/-- `Path::display`, used only to build error-message text: components
joined with a separator. -/
def pathDisplay (p : RPath) : String :=
  String.intercalate "/" p

/-- `Path::parent`: `none` for an empty path, otherwise the path without
its last component. -/
def pathParent (p : RPath) : Option RPath :=
  if p = [] then none else some p.dropLast

/-- The runtime environment seen by `relay_exe_path`:
`app.path().executable_dir()` (may fail), `std::env::current_exe()`
(may fail), the compile-time `CARGO_MANIFEST_DIR`, and the filesystem
existence predicate backing `Path::exists`. -/
structure Env where
  executable_dir : Option RPath
  current_exe : Option RPath
  manifest_dir : RPath
  fsExists : RPath → Bool

/-- The candidate list built by `relay_exe_path` (lib.rs lines 31-46), in
source order: the app executable directory, the parent of the current
process executable, `CARGO_MANIFEST_DIR/bin`, one level up and two levels
up from `CARGO_MANIFEST_DIR`, each joined with `relay.exe`.  A candidate
whose base could not be obtained is skipped. -/
def candidates (env : Env) : List RPath :=
  (match env.executable_dir with
   | some exe_dir => [exe_dir ++ ["relay.exe"]]
   | none => []) ++
  (match env.current_exe with
   | some exe =>
     match pathParent exe with
     | some dir => [dir ++ ["relay.exe"]]
     | none => []
   | none => []) ++
  [env.manifest_dir ++ ["bin", "relay.exe"],
   env.manifest_dir ++ ["..", "relay.exe"],
   env.manifest_dir ++ ["..", "..", "relay.exe"]]

/-- `first_existing` (lib.rs lines 22-24):
`candidates.iter().find(|p| p.exists()).cloned()`. -/
def first_existing (ex : RPath → Bool) (cs : List RPath) : Option RPath :=
  cs.find? ex

/-- Instrumented version of `first_existing`: same result, and the list of
candidates whose existence was actually probed.  `Iterator::find` is
short-circuiting, so probing stops at the first hit. -/
def probeFind (ex : RPath → Bool) : List RPath → Option RPath × List RPath
  | [] => (none, [])
  | p :: ps =>
    if ex p then (some p, [p])
    else
      let r := probeFind ex ps
      (r.1, p :: r.2)

/-- The error message built at lib.rs lines 53-61: every checked candidate,
one per line, followed by a remediation hint. -/
def notFoundMsg (cs : List RPath) : String :=
  "relay.exe not found. Checked:\n" ++
  String.intercalate "\n" (cs.map (fun p => "  - " ++ pathDisplay p)) ++
  "\n\nFix: place relay.exe in src-tauri/bin/relay.exe (recommended) and set bundle.externalBin to [\"bin/relay.exe\"], or place relay.exe next to the running executable."

/-- Result of one `relay_exe_path` call: the returned
`Result<PathBuf, String>`, the state of the `RELAY_PATH` cache after the
call, and the list of filesystem existence probes performed. -/
structure ResolveOut where
  result : Except String RPath
  cache : Option RPath
  probes : List RPath

/-- `relay_exe_path` (lib.rs lines 26-62).  If the `RELAY_PATH` cache is
set, its value is returned immediately (no candidates built, no probes).
Otherwise the candidate list is searched; on a hit the found path is
stored in the cache and returned, on a miss an error enumerating all
candidates is returned and the cache is left unset. -/
def relay_exe_path (env : Env) (cache : Option RPath) : ResolveOut :=
  match cache with
  | some p => ⟨.ok p, some p, []⟩
  | none =>
    match probeFind env.fsExists (candidates env) with
    | (some found, probes) => ⟨.ok found, some found, probes⟩
    | (none, probes) => ⟨.error (notFoundMsg (candidates env)), none, probes⟩

/-- Decoded text is a list of Unicode scalar values. -/
abbrev Text := List Nat

/-- U+FFFD REPLACEMENT CHARACTER, emitted by lossy decoding for each
maximal invalid subpart. -/
def replacementChar : Nat := 0xFFFD

/-- Is `b` a UTF-8 continuation byte (`0x80..0xBF`)? -/
def isCont (b : Nat) : Bool :=
  0x80 ≤ b && b ≤ 0xBF

/-- `String::from_utf8_lossy`: total decoding of a byte sequence to
Unicode scalar values.  Well-formed sequences decode normally; each
maximal invalid subpart is replaced by U+FFFD (the substitution-of-maximal-
subparts policy used by Rust's `Utf8Chunks`: after an invalid byte the
decoder resynchronises after the bytes that formed a valid prefix). -/
def utf8Lossy : List Nat → Text
  | [] => []
  | b0 :: rest =>
    if b0 < 0x80 then
      b0 :: utf8Lossy rest
    else if 0xC2 ≤ b0 && b0 ≤ 0xDF then
      match rest with
      | b1 :: rest1 =>
        if isCont b1 then
          ((b0 - 0xC0) * 0x40 + (b1 - 0x80)) :: utf8Lossy rest1
        else
          replacementChar :: utf8Lossy (b1 :: rest1)
      | [] => [replacementChar]
    else if 0xE0 ≤ b0 && b0 ≤ 0xEF then
      match rest with
      | b1 :: rest1 =>
        if (b0 = 0xE0 && (0xA0 ≤ b1 && b1 ≤ 0xBF)) ||
           (b0 = 0xED && (0x80 ≤ b1 && b1 ≤ 0x9F)) ||
           ((b0 ≠ 0xE0 && b0 ≠ 0xED) && isCont b1) then
          match rest1 with
          | b2 :: rest2 =>
            if isCont b2 then
              ((b0 - 0xE0) * 0x1000 + (b1 - 0x80) * 0x40 + (b2 - 0x80)) ::
                utf8Lossy rest2
            else
              replacementChar :: utf8Lossy (b2 :: rest2)
          | [] => [replacementChar]
        else
          replacementChar :: utf8Lossy (b1 :: rest1)
      | [] => [replacementChar]
    else if 0xF0 ≤ b0 && b0 ≤ 0xF4 then
      match rest with
      | b1 :: rest1 =>
        if (b0 = 0xF0 && (0x90 ≤ b1 && b1 ≤ 0xBF)) ||
           (b0 = 0xF4 && (0x80 ≤ b1 && b1 ≤ 0x8F)) ||
           ((b0 ≠ 0xF0 && b0 ≠ 0xF4) && isCont b1) then
          match rest1 with
          | b2 :: rest2 =>
            if isCont b2 then
              match rest2 with
              | b3 :: rest3 =>
                if isCont b3 then
                  ((b0 - 0xF0) * 0x40000 + (b1 - 0x80) * 0x1000 +
                    (b2 - 0x80) * 0x40 + (b3 - 0x80)) :: utf8Lossy rest3
                else
                  replacementChar :: utf8Lossy (b3 :: rest3)
              | [] => [replacementChar]
            else
              replacementChar :: utf8Lossy (b2 :: rest2)
          | [] => [replacementChar]
        else
          replacementChar :: utf8Lossy (b1 :: rest1)
      | [] => [replacementChar]
    else
      replacementChar :: utf8Lossy rest

/-- Strict UTF-8 decoding (`String::from_utf8`): `none` on any invalid
byte sequence.  Used only to exhibit inputs on which strict decoding
fails while the lossy decoding used by the bridge still succeeds. -/
def from_utf8 : List Nat → Option Text
  | [] => some []
  | b0 :: rest =>
    if b0 < 0x80 then
      (from_utf8 rest).map (b0 :: ·)
    else if 0xC2 ≤ b0 && b0 ≤ 0xDF then
      match rest with
      | b1 :: rest1 =>
        if isCont b1 then
          (from_utf8 rest1).map (((b0 - 0xC0) * 0x40 + (b1 - 0x80)) :: ·)
        else none
      | [] => none
    else if 0xE0 ≤ b0 && b0 ≤ 0xEF then
      match rest with
      | b1 :: b2 :: rest2 =>
        if ((b0 = 0xE0 && (0xA0 ≤ b1 && b1 ≤ 0xBF)) ||
            (b0 = 0xED && (0x80 ≤ b1 && b1 ≤ 0x9F)) ||
            ((b0 ≠ 0xE0 && b0 ≠ 0xED) && isCont b1)) && isCont b2 then
          (from_utf8 rest2).map
            (((b0 - 0xE0) * 0x1000 + (b1 - 0x80) * 0x40 + (b2 - 0x80)) :: ·)
        else none
      | _ => none
    else if 0xF0 ≤ b0 && b0 ≤ 0xF4 then
      match rest with
      | b1 :: b2 :: b3 :: rest3 =>
        if ((b0 = 0xF0 && (0x90 ≤ b1 && b1 ≤ 0xBF)) ||
            (b0 = 0xF4 && (0x80 ≤ b1 && b1 ≤ 0x8F)) ||
            ((b0 ≠ 0xF0 && b0 ≠ 0xF4) && isCont b1)) &&
           isCont b2 && isCont b3 then
          (from_utf8 rest3).map
            (((b0 - 0xF0) * 0x40000 + (b1 - 0x80) * 0x1000 +
              (b2 - 0x80) * 0x40 + (b3 - 0x80)) :: ·)
        else none
      | _ => none
    else none

/-- The serialised bridge result (`CmdResult`, lib.rs lines 14-20):
`ok = output.status.success()`, `code = output.status.code()`, and the
two output streams decoded lossily. -/
structure CmdResult where
  ok : Bool
  code : Option Int
  stdout : Text
  stderr : Text
  deriving DecidableEq

/-- Outcome of `Command::output()` for one spawn attempt:
`launchErr` models `Err(e)` (the process could not be started at all);
`exited c` models a normal exit with `ExitStatus::code() = Some c`
(`success()` iff `c = 0`); `signaled` models termination without an exit
code (`code() = None`, `success() = false`). -/
inductive ProcOutcome where
  | launchErr (msg : String)
  | exited (code : Int) (stdout stderr : List Nat)
  | signaled (stdout stderr : List Nat)
  deriving DecidableEq

/-- The world one bridge call runs in: the resolution environment, the
`RELAY_PATH` cache state at entry, and the operating system's response to
spawning a given binary with given arguments. -/
structure World where
  env : Env
  cache : Option RPath
  run : RPath → List String → ProcOutcome

/-- Observable side effects of one bridge call: filesystem existence
probes performed, child processes launched (with their argument vectors),
and the `RELAY_PATH` cache after the call. -/
structure Trace where
  probes : List RPath
  launches : List (RPath × List String)
  cacheAfter : Option RPath
  deriving DecidableEq

/-- `run_relay` (lib.rs lines 65-87): resolve the binary (propagating a
resolution error), spawn it with the given arguments, map a spawn failure
to `"Failed to run <path>: <cause>"`, and otherwise package the exit
status and lossily-decoded output streams into a `CmdResult`. -/
def run_relay (w : World) (args : List String) :
    Except String CmdResult × Trace :=
  match relay_exe_path w.env w.cache with
  | ⟨.error e, cache1, probes⟩ => (.error e, ⟨probes, [], cache1⟩)
  | ⟨.ok exe, cache1, probes⟩ =>
    match w.run exe args with
    | .launchErr m =>
      (.error ("Failed to run " ++ pathDisplay exe ++ ": " ++ m),
       ⟨probes, [(exe, args)], cache1⟩)
    | .exited c out err =>
      (.ok ⟨c == 0, some c, utf8Lossy out, utf8Lossy err⟩,
       ⟨probes, [(exe, args)], cache1⟩)
    | .signaled out err =>
      (.ok ⟨false, none, utf8Lossy out, utf8Lossy err⟩,
       ⟨probes, [(exe, args)], cache1⟩)

/-- Model of a Rust `f32` as far as the bridge observes it: the bridge
never computes with the value, it only formats it with `Display`.
Finite values carry their `Display` rendering (Rust renders finite floats
as a plain locale-independent decimal such as `1.5` or `-0.25`); the
special values render as `NaN`, `inf` and `-inf`. -/
inductive F32 where
  | nan
  | inf
  | negInf
  | finite (render : String)
  deriving DecidableEq

/-- `f32::to_string()` (the `Display` implementation): `NaN` for NaN,
`inf` / `-inf` for the infinities, the plain decimal rendering for finite
values. -/
def f32ToString : F32 → String
  | .nan => "NaN"
  | .inf => "inf"
  | .negInf => "-inf"
  | .finite r => r

/-- The `--port <id>` prefix pushed by `relay_status` / `relay_set` /
`relay_all` when a port identifier is supplied. -/
def portArgs : Option String → List String
  | some p => ["--port", p]
  | none => []

/-- The `--seconds <n>` suffix pushed by `relay_set` / `relay_all` when a
duration is supplied. -/
def secondsArgs : Option F32 → List String
  | some s => ["--seconds", f32ToString s]
  | none => []

/-- `relay_list_ports` (lib.rs lines 89-93): always invokes with exactly
`["list-ports", "--json"]` (the command takes no port parameter). -/
def relay_list_ports (w : World) : Except String CmdResult × Trace :=
  run_relay w ["list-ports", "--json"]

/-- `relay_status` (lib.rs lines 95-105): optional `--port` pair, then
`status <target>`. -/
def relay_status (w : World) (port : Option String) (target : String) :
    Except String CmdResult × Trace :=
  run_relay w (portArgs port ++ ["status", target])

/-- `relay_set` (lib.rs lines 107-134).  The relay index is a `u8`,
modelled as a `Nat` (callers supply values `< 256`; the bound plays no
role in the logic).  Indices outside `1..8` are rejected locally with
`"Relay number must be 1..8"` before any resolution or spawn; otherwise
the argument vector is the optional `--port` pair, `relay <index> <state>`
with the index rendered by `u8::to_string()` (plain decimal, embedded as
`Nat.repr`), and the optional `--seconds` pair. -/
def relay_set (w : World) (port : Option String) (relay : Nat)
    (state : String) (seconds : Option F32) :
    Except String CmdResult × Trace :=
  if relay < 1 ∨ relay > 8 then
    (.error "Relay number must be 1..8", ⟨[], [], w.cache⟩)
  else
    run_relay w
      (portArgs port ++ ["relay", Nat.repr relay, state] ++
        secondsArgs seconds)

/-- `relay_all` (lib.rs lines 136-157): optional `--port` pair,
`all <state>`, optional `--seconds` pair; no validation of any input. -/
def relay_all (w : World) (port : Option String) (state : String)
    (seconds : Option F32) : Except String CmdResult × Trace :=
  run_relay w (portArgs port ++ ["all", state] ++ secondsArgs seconds)

/-! Concrete fixtures used by the witness theorems: an environment in
which only the third candidate (`M/bin/relay.exe`) exists, an environment
in which no candidate exists, and worlds whose operating system responds
with a chosen process outcome. -/

/-- The path `M/bin/relay.exe`: the third resolution candidate of
`envA`. -/
def exeA : RPath := ["M", "bin", "relay.exe"]

/-- Environment where the app executable directory is `A`, the current
process executable is `B/gui.exe`, the manifest directory is `M`, and
only `M/bin/relay.exe` exists on disk. -/
def envA : Env :=
  ⟨some ["A"], some ["B", "gui.exe"], ["M"], fun p => p == exeA⟩

/-- Environment like `envA` but with an empty filesystem: no candidate
exists. -/
def envMiss : Env := ⟨some ["A"], some ["B", "gui.exe"], ["M"], fun _ => false⟩

/-- World over `envA` whose child process always exits cleanly with code
0 and empty output. -/
def worldOk : World := ⟨envA, none, fun _ _ => .exited 0 [] []⟩

/-- World over `envA` whose child process always exits with code 2. -/
def worldExit2 : World := ⟨envA, none, fun _ _ => .exited 2 [] []⟩

/-- World over `envA` whose child process exits with code 0 and writes
the invalid UTF-8 byte 0xFF followed by `a` to stdout and `a` to
stderr. -/
def worldBytes : World := ⟨envA, none, fun _ _ => .exited 0 [0xFF, 0x61] [0x61]⟩

/-- World over `envA` in which every spawn attempt fails with the OS
error text `os error 2`. -/
def worldSpawnFail : World := ⟨envA, none, fun _ _ => .launchErr "os error 2"⟩

/-- The instrumented candidate search agrees with the direct embedding of
`first_existing`: its first component is exactly
`candidates.iter().find(|p| p.exists())`. -/
theorem probeFind_fst (ex : RPath → Bool) (cs : List RPath) :
    (probeFind ex cs).1 = first_existing ex cs := by
  induction cs with
  | nil => rfl
  | cons p ps ih =>
    by_cases h : ex p = true
    · simp [probeFind, first_existing, List.find?_cons, h]
    · simp only [probeFind, first_existing, List.find?_cons, h] at ih ⊢
      simp [h, ih]

/-- Helper: if resolution succeeded with path `exe`, the full
`ResolveOut` record has the shape `⟨.ok exe, cache, probes⟩` for some
cache state and probe list. -/
theorem resolve_ok_shape (w : World) (exe : RPath)
    (hres : (relay_exe_path w.env w.cache).result = .ok exe) :
    ∃ cach pr, relay_exe_path w.env w.cache = ⟨.ok exe, cach, pr⟩ := by
  rcases hh : relay_exe_path w.env w.cache with ⟨res, cach, pr⟩
  rw [hh] at hres
  simp only at hres
  subst hres
  exact ⟨cach, pr, rfl⟩

/-- C1: for every relay index outside [1,8], `relay_set` returns the
local validation failure `"Relay number must be 1..8"` with no filesystem
probe and no child process launched; for every index in [1,8] the
validation branch is not taken and the call proceeds to `run_relay` with
the built arguments. -/
theorem relay_set_rejects_out_of_range_only (w : World) (port : Option String)
    (relay : Nat) (state : String) (seconds : Option F32) :
    (relay < 1 ∨ relay > 8 →
      relay_set w port relay state seconds =
        (.error "Relay number must be 1..8", ⟨[], [], w.cache⟩)) ∧
    (1 ≤ relay → relay ≤ 8 →
      relay_set w port relay state seconds =
        run_relay w (portArgs port ++ ["relay", Nat.repr relay, state] ++
          secondsArgs seconds)) := by
  constructor
  · intro h
    rw [relay_set, if_pos h]
  · intro h1 h2
    rw [relay_set, if_neg (by omega)]

/-- C1 witness: index 0 is rejected with no probe and no launch; index 8
proceeds to invocation. -/
theorem relay_set_rejects_out_of_range_only_witness :
    relay_set worldOk none 0 "on" none =
      (.error "Relay number must be 1..8", ⟨[], [], worldOk.cache⟩) ∧
    relay_set worldOk none 8 "on" none =
      run_relay worldOk (portArgs none ++ ["relay", Nat.repr 8, "on"] ++
        secondsArgs none) :=
  ⟨(relay_set_rejects_out_of_range_only worldOk none 0 "on" none).1 (by omega),
   (relay_set_rejects_out_of_range_only worldOk none 8 "on" none).2
     (by omega) (by omega)⟩

/-- C2: when every base directory is available, the candidate list is
exactly the five declared locations in source order; if only the third
candidate exists, resolution returns it, caches it, and the probe list is
exactly the first three candidates — the fourth and fifth are never
checked. -/
theorem resolution_order_and_first_hit (env : Env) (a e d m : RPath)
    (ha : env.executable_dir = some a)
    (he : env.current_exe = some e)
    (hd : pathParent e = some d)
    (hm : env.manifest_dir = m)
    (h1 : env.fsExists (a ++ ["relay.exe"]) = false)
    (h2 : env.fsExists (d ++ ["relay.exe"]) = false)
    (h3 : env.fsExists (m ++ ["bin", "relay.exe"]) = true) :
    candidates env =
      [a ++ ["relay.exe"], d ++ ["relay.exe"], m ++ ["bin", "relay.exe"],
       m ++ ["..", "relay.exe"], m ++ ["..", "..", "relay.exe"]] ∧
    relay_exe_path env none =
      ⟨.ok (m ++ ["bin", "relay.exe"]), some (m ++ ["bin", "relay.exe"]),
       [a ++ ["relay.exe"], d ++ ["relay.exe"], m ++ ["bin", "relay.exe"]]⟩ := by
  have hc : candidates env =
      [a ++ ["relay.exe"], d ++ ["relay.exe"], m ++ ["bin", "relay.exe"],
       m ++ ["..", "relay.exe"], m ++ ["..", "..", "relay.exe"]] := by
    simp [candidates, ha, he, hd, hm]
  refine ⟨hc, ?_⟩
  rw [relay_exe_path, hc]
  simp [probeFind, h1, h2, h3]

/-- C2 witness: in `envA` only the third candidate exists; resolution
returns it and probes exactly the first three candidates. -/
theorem resolution_order_and_first_hit_witness :
    candidates envA =
      [["A"] ++ ["relay.exe"], ["B"] ++ ["relay.exe"],
       ["M"] ++ ["bin", "relay.exe"], ["M"] ++ ["..", "relay.exe"],
       ["M"] ++ ["..", "..", "relay.exe"]] ∧
    relay_exe_path envA none =
      ⟨.ok (["M"] ++ ["bin", "relay.exe"]),
       some (["M"] ++ ["bin", "relay.exe"]),
       [["A"] ++ ["relay.exe"], ["B"] ++ ["relay.exe"],
        ["M"] ++ ["bin", "relay.exe"]]⟩ :=
  resolution_order_and_first_hit envA ["A"] ["B", "gui.exe"] ["B"] ["M"]
    rfl rfl (by decide) rfl (by decide) (by decide) (by decide)

/-- C3: when the child starts and exits normally with code `c`, the
bridge returns a normal `CmdResult` whose `ok` is `c == 0` (true iff the
exit status is zero) and whose `code` is `some c` — a non-zero exit is
not a bridge-level error; when the child terminates without a normal exit
code (e.g. by a signal), `ok` is false and `code` is absent. -/
theorem exit_status_determines_ok (w : World) (args : List String)
    (exe : RPath) (c : Int) (out err so se : List Nat)
    (hres : (relay_exe_path w.env w.cache).result = .ok exe) :
    (w.run exe args = .exited c out err →
      (run_relay w args).1 =
        .ok ⟨c == 0, some c, utf8Lossy out, utf8Lossy err⟩ ∧
      ((c == 0) = true ↔ c = 0)) ∧
    (w.run exe args = .signaled so se →
      (run_relay w args).1 = .ok ⟨false, none, utf8Lossy so, utf8Lossy se⟩) := by
  obtain ⟨cach, pr, hr⟩ := resolve_ok_shape w exe hres
  constructor
  · intro hrun
    refine ⟨?_, by simp⟩
    simp [run_relay, hr, hrun]
  · intro hrun
    simp [run_relay, hr, hrun]

/-- C3 witness: a child exiting with code 2 yields a normal result with
`ok = false` and `code = some 2`, and no bridge error. -/
theorem exit_status_determines_ok_witness :
    (run_relay worldExit2 ["status", "1"]).1 =
      .ok ⟨(2 : Int) == 0, some 2, utf8Lossy [], utf8Lossy []⟩ ∧
    (((2 : Int) == 0) = true ↔ (2 : Int) = 0) :=
  (exit_status_determines_ok worldExit2 ["status", "1"] exeA 2 [] [] [] []
    rfl).1 rfl

/-- C4: for every index in [1,8] and every state string, `relay_set`
with no port builds exactly `["relay", <index>, <state>]`, followed by
`["--seconds", <seconds>]` exactly when a duration is supplied; the index
is rendered by `Nat.repr`, a plain decimal digit string with no locale
dependence. -/
theorem relay_set_builds_exact_args (w : World) (relay : Nat)
    (state : String) (sec : F32) (h1 : 1 ≤ relay) (h2 : relay ≤ 8) :
    relay_set w none relay state none =
      run_relay w ["relay", Nat.repr relay, state] ∧
    relay_set w none relay state (some sec) =
      run_relay w ["relay", Nat.repr relay, state, "--seconds",
        f32ToString sec] ∧
    (Nat.repr relay).toList.all Char.isDigit = true := by
  refine ⟨?_, ?_, ?_⟩
  · rw [relay_set, if_neg (by omega)]
    simp [portArgs, secondsArgs]
  · rw [relay_set, if_neg (by omega)]
    simp [portArgs, secondsArgs]
  · interval_cases relay <;> decide

/-- C4 witness: index 3 with state `on`, both without and with a
duration. -/
theorem relay_set_builds_exact_args_witness :
    relay_set worldOk none 3 "on" none =
      run_relay worldOk ["relay", Nat.repr 3, "on"] ∧
    relay_set worldOk none 3 "on" (some F32.nan) =
      run_relay worldOk ["relay", Nat.repr 3, "on", "--seconds",
        f32ToString F32.nan] ∧
    (Nat.repr 3).toList.all Char.isDigit = true :=
  relay_set_builds_exact_args worldOk 3 "on" F32.nan (by omega) (by omega)

/-- C5: a successful first resolution stores the found path in the cache,
and every subsequent call — under any environment, in particular one
whose filesystem changed — returns the identical cached path with an
empty probe list (no further existence checks). -/
theorem resolution_success_is_cached (env env2 : Env) (p : RPath)
    (h : (relay_exe_path env none).result = .ok p) :
    (relay_exe_path env none).cache = some p ∧
    relay_exe_path env2 (some p) = ⟨.ok p, some p, []⟩ := by
  refine ⟨?_, rfl⟩
  rw [relay_exe_path] at h ⊢
  rcases hp : probeFind env.fsExists (candidates env) with ⟨r, probes⟩
  cases r with
  | none => rw [hp] at h; simp at h
  | some found => rw [hp] at h; simp at h; simp [h]

/-- C5 witness: `envA` resolves to `M/bin/relay.exe`; with the cache set,
a second call under the empty filesystem `envMiss` still returns the same
path and performs no probe. -/
theorem resolution_success_is_cached_witness :
    (relay_exe_path envA none).cache = some exeA ∧
    relay_exe_path envMiss (some exeA) = ⟨.ok exeA, some exeA, []⟩ :=
  resolution_success_is_cached envA envMiss exeA rfl

/-- C6: a failed resolution leaves the cache unset, so a subsequent call
(under any environment) behaves exactly like a fresh call with an empty
cache: the full candidate search is re-attempted, allowing recovery if
the binary appears later. -/
theorem resolution_failure_not_cached (env env2 : Env) (e : String)
    (h : (relay_exe_path env none).result = .error e) :
    (relay_exe_path env none).cache = none ∧
    relay_exe_path env2 ((relay_exe_path env none).cache) =
      relay_exe_path env2 none := by
  have hc : (relay_exe_path env none).cache = none := by
    rw [relay_exe_path] at h ⊢
    rcases hp : probeFind env.fsExists (candidates env) with ⟨r, probes⟩
    cases r with
    | none => simp
    | some found => rw [hp] at h; simp at h
  exact ⟨hc, by rw [hc]⟩

/-- C6 witness: resolution under the empty filesystem `envMiss` fails and
caches nothing; the next call under `envA` is identical to a fresh call
(which there succeeds). -/
theorem resolution_failure_not_cached_witness :
    (relay_exe_path envMiss none).cache = none ∧
    relay_exe_path envA ((relay_exe_path envMiss none).cache) =
      relay_exe_path envA none :=
  resolution_failure_not_cached envMiss envA
    (notFoundMsg (candidates envMiss)) rfl

/-- C7: when the spawn itself fails, the invocation returns the launch
error `"Failed to run <path>: <cause>"` naming the attempted path and the
underlying OS cause, and no `CmdResult` is produced (the result is not
`ok`); a child that runs and exits non-zero instead yields a normal
result (see the C3 theorem). -/
theorem launch_failure_is_error_naming_path (w : World) (args : List String)
    (exe : RPath) (m : String)
    (hres : (relay_exe_path w.env w.cache).result = .ok exe)
    (hrun : w.run exe args = .launchErr m) :
    (run_relay w args).1 =
      .error ("Failed to run " ++ pathDisplay exe ++ ": " ++ m) ∧
    (run_relay w args).1.isOk = false := by
  obtain ⟨cach, pr, hr⟩ := resolve_ok_shape w exe hres
  constructor
  · simp [run_relay, hr, hrun]
  · simp [run_relay, hr, hrun, Except.isOk, Except.toBool]

/-- C7 witness: a failing spawn in `worldSpawnFail` yields the launch
error naming `M/bin/relay.exe` and the cause, with no result record. -/
theorem launch_failure_is_error_naming_path_witness :
    (run_relay worldSpawnFail ["all", "on"]).1 =
      .error ("Failed to run " ++ pathDisplay exeA ++ ": " ++ "os error 2") ∧
    (run_relay worldSpawnFail ["all", "on"]).1.isOk = false :=
  launch_failure_is_error_naming_path worldSpawnFail ["all", "on"] exeA
    "os error 2" rfl rfl

/-- C8: every operation prepends the pair `["--port", <id>]` exactly when
a port identifier is supplied; with none supplied no `--port` pair is
built, and `relay_list_ports` (which takes no port) invokes with exactly
`["list-ports", "--json"]`. -/
theorem port_flag_prepended_iff_supplied (w : World) (p target state : String)
    (relay : Nat) (sec : Option F32) (h1 : 1 ≤ relay) (h2 : relay ≤ 8) :
    relay_list_ports w = run_relay w ["list-ports", "--json"] ∧
    relay_status w (some p) target =
      run_relay w (["--port", p] ++ ["status", target]) ∧
    relay_status w none target = run_relay w ["status", target] ∧
    relay_set w (some p) relay state sec =
      run_relay w (["--port", p] ++ ["relay", Nat.repr relay, state] ++
        secondsArgs sec) ∧
    relay_all w (some p) state sec =
      run_relay w (["--port", p] ++ ["all", state] ++ secondsArgs sec) ∧
    relay_all w none state sec =
      run_relay w (["all", state] ++ secondsArgs sec) := by
  refine ⟨rfl, rfl, rfl, ?_, rfl, rfl⟩
  rw [relay_set, if_neg (by omega)]
  rfl

/-- C8 witness: instantiation at port `COM3`, target `t1`, state `on`,
relay 5. -/
theorem port_flag_prepended_iff_supplied_witness :
    relay_list_ports worldOk = run_relay worldOk ["list-ports", "--json"] ∧
    relay_status worldOk (some "COM3") "t1" =
      run_relay worldOk (["--port", "COM3"] ++ ["status", "t1"]) ∧
    relay_status worldOk none "t1" = run_relay worldOk ["status", "t1"] ∧
    relay_set worldOk (some "COM3") 5 "on" none =
      run_relay worldOk (["--port", "COM3"] ++ ["relay", Nat.repr 5, "on"] ++
        secondsArgs none) ∧
    relay_all worldOk (some "COM3") "on" none =
      run_relay worldOk (["--port", "COM3"] ++ ["all", "on"] ++
        secondsArgs none) ∧
    relay_all worldOk none "on" none =
      run_relay worldOk (["all", "on"] ++ secondsArgs none) :=
  port_flag_prepended_iff_supplied worldOk "COM3" "t1" "on" 5 none
    (by omega) (by omega)

/-- C9: output capture is total — for every stdout/stderr byte sequence
the invocation returns a normal result whose text fields are the lossy
decoding of the captured bytes; strict UTF-8 decoding rejects the byte
0xFF, while the lossy decoding used by the bridge replaces it with
U+FFFD instead of failing. -/
theorem output_capture_is_lossy_total (w : World) (args : List String)
    (exe : RPath) (c : Int) (out err : List Nat)
    (hres : (relay_exe_path w.env w.cache).result = .ok exe)
    (hrun : w.run exe args = .exited c out err) :
    (run_relay w args).1 =
      .ok ⟨c == 0, some c, utf8Lossy out, utf8Lossy err⟩ ∧
    from_utf8 [0xFF, 0x61] = none ∧
    utf8Lossy [0xFF, 0x61] = [replacementChar, 0x61] := by
  obtain ⟨cach, pr, hr⟩ := resolve_ok_shape w exe hres
  refine ⟨?_, by decide, by decide⟩
  simp [run_relay, hr, hrun]

/-- C9 witness: a child writing the invalid byte 0xFF still yields a
normal result whose stdout is the lossy decoding. -/
theorem output_capture_is_lossy_total_witness :
    (run_relay worldBytes ["relay", "1", "on"]).1 =
      .ok ⟨(0 : Int) == 0, some 0, utf8Lossy [0xFF, 0x61],
        utf8Lossy [0x61]⟩ ∧
    from_utf8 [0xFF, 0x61] = none ∧
    utf8Lossy [0xFF, 0x61] = [replacementChar, 0x61] :=
  output_capture_is_lossy_total worldBytes ["relay", "1", "on"] exeA 0
    [0xFF, 0x61] [0x61] rfl rfl

/-- C10: `relay_set` (for any in-range index) and `relay_all` accept
every `f32` duration value — including NaN and the infinities — with no
validation: the value is rendered by the default `Display` conversion as
the `--seconds` argument, with NaN rendered as `NaN` and infinity as
`inf`, and passed to the child process rather than rejected locally. -/
theorem seconds_accepted_unvalidated (w : World) (port : Option String)
    (relay : Nat) (state : String) (sec : F32)
    (h1 : 1 ≤ relay) (h2 : relay ≤ 8) :
    relay_set w port relay state (some sec) =
      run_relay w (portArgs port ++ ["relay", Nat.repr relay, state] ++
        ["--seconds", f32ToString sec]) ∧
    relay_all w port state (some sec) =
      run_relay w (portArgs port ++ ["all", state] ++
        ["--seconds", f32ToString sec]) ∧
    f32ToString F32.nan = "NaN" ∧ f32ToString F32.inf = "inf" := by
  exact ⟨by rw [relay_set, if_neg (by omega)]; rfl, rfl, rfl, rfl⟩

/-- C10 witness: a NaN duration is accepted and rendered as `NaN`. -/
theorem seconds_accepted_unvalidated_witness :
    relay_set worldOk (some "COM3") 8 "off" (some F32.nan) =
      run_relay worldOk (portArgs (some "COM3") ++
        ["relay", Nat.repr 8, "off"] ++ ["--seconds", f32ToString F32.nan]) ∧
    relay_all worldOk (some "COM3") "off" (some F32.nan) =
      run_relay worldOk (portArgs (some "COM3") ++ ["all", "off"] ++
        ["--seconds", f32ToString F32.nan]) ∧
    f32ToString F32.nan = "NaN" ∧ f32ToString F32.inf = "inf" :=
  seconds_accepted_unvalidated worldOk (some "COM3") 8 "off" F32.nan
    (by omega) (by omega)
